import Mathlib

/-!
Shallow embedding of two modules of the h2o-3 Python client:

* h2o/estimators/psvm.py — the H2OSupportVectorMachineEstimator parameter
  container: a mapping from recognized parameter names to validated values,
  populated either at construction (a batch of name/value pairs, each
  validated and applied one at a time) or through per-field setters.
* h2o/model/permutation_varimp.py — the permutation variable-importance
  requester (permutation_varimp) and the bar-chart renderer
  (plot_permutation_var_imp).

Collaborators that live outside the two source files (the typecheck helpers
assert_is_type and Enum, H2OFrame validation and the remote expression
evaluator, pandas materialization, the matplotlib backend) are modelled from
the specification; each such definition carries a doc comment starting with
"Modelled from the spec:".
-/

namespace H2OSpec

/-- A Python value, restricted to the value shapes the two modules handle:
the absent sentinel None, strings, booleans, integers, floats (modelled as
rationals), lists of strings, references to remote data tables (H2OFrame),
and local tabular objects convertible to a remote table. -/
inductive PValue where
  | vNone
  | vStr (s : String)
  | vBool (b : Bool)
  | vInt (n : Int)
  | vNum (q : ℚ)
  | vStrList (l : List String)
  | vFrame (key : String)
  | vLocalTable (key : String)
deriving DecidableEq

/-- The error taxonomy of the two modules: a type-validation error carrying
field name, expected type and offending value (H2OTypeError raised by
assert_is_type), a value error naming a field and the offending value
(raised by the data-table validation of training_frame and
validation_frame), the unknown-parameter error of the constructor
(H2OValueError), and a plain Python ValueError with a message (raised by
permutation_varimp). -/
inductive H2OError where
  | typeError (field expected : String) (value : PValue)
  | valueError (field : String) (value : PValue)
  | unknownParam (pname : String) (value : PValue)
  | pyValueError (msg : String)
deriving DecidableEq

/-- The declared type of a parameter field, as written in each setter of
psvm.py: str, bool, int, numeric (int or float), list of str, an enumerated
string set, or a data-table reference. -/
inductive FieldType where
  | tStr
  | tBool
  | tInt
  | tNumeric
  | tStrList
  | tEnum (consts : List String)
  | tFrame
deriving DecidableEq

/-- Modelled from the spec: whether a value matches a declared type, as the
typecheck collaborator (h2o.utils.typechecks, not under src/) decides it.
The enumerated type admits exactly its listed constants; numeric admits
integers and floats. -/
def matchesType : FieldType → PValue → Bool
  | FieldType.tStr, PValue.vStr _ => true
  | FieldType.tBool, PValue.vBool _ => true
  | FieldType.tInt, PValue.vInt _ => true
  | FieldType.tNumeric, PValue.vInt _ => true
  | FieldType.tNumeric, PValue.vNum _ => true
  | FieldType.tStrList, PValue.vStrList _ => true
  | FieldType.tEnum cs, PValue.vStr x => cs.contains x
  | FieldType.tFrame, PValue.vFrame _ => true
  | _, _ => false

/-- Printable name of a declared type, used in type-validation errors. -/
def typeName : FieldType → String
  | FieldType.tStr => "str"
  | FieldType.tBool => "bool"
  | FieldType.tInt => "int"
  | FieldType.tNumeric => "numeric"
  | FieldType.tStrList => "list of str"
  | FieldType.tEnum cs => "Enum " ++ String.intercalate ", " cs
  | FieldType.tFrame => "H2OFrame"

/-- The declared type of each recognized field, one entry per property
setter of psvm.py (model_id is declared in the estimator base class, which
is not under src/; modelled from the spec as a free-form string). -/
def declaredType (name : String) : Option FieldType :=
  if name = "model_id" then some FieldType.tStr
  else if name = "training_frame" then some FieldType.tFrame
  else if name = "validation_frame" then some FieldType.tFrame
  else if name = "response_column" then some FieldType.tStr
  else if name = "ignored_columns" then some FieldType.tStrList
  else if name = "ignore_const_cols" then some FieldType.tBool
  else if name = "hyper_param" then some FieldType.tNumeric
  else if name = "kernel_type" then some (FieldType.tEnum ["gaussian"])
  else if name = "gamma" then some FieldType.tNumeric
  else if name = "rank_ratio" then some FieldType.tNumeric
  else if name = "positive_weight" then some FieldType.tNumeric
  else if name = "negative_weight" then some FieldType.tNumeric
  else if name = "disable_training_metrics" then some FieldType.tBool
  else if name = "sv_threshold" then some FieldType.tNumeric
  else if name = "fact_threshold" then some FieldType.tNumeric
  else if name = "feasible_threshold" then some FieldType.tNumeric
  else if name = "surrogate_gap_threshold" then some FieldType.tNumeric
  else if name = "mu_factor" then some FieldType.tNumeric
  else if name = "max_iterations" then some FieldType.tInt
  else if name = "seed" then some FieldType.tInt
  else none

/-- The closed recognized-name set names_list of
H2OSupportVectorMachineEstimator.__init__. -/
def recognizedNames : List String :=
  ["model_id", "training_frame", "validation_frame", "response_column",
   "ignored_columns", "ignore_const_cols", "hyper_param", "kernel_type",
   "gamma", "rank_ratio", "positive_weight", "negative_weight",
   "disable_training_metrics", "sv_threshold", "fact_threshold",
   "feasible_threshold", "surrogate_gap_threshold", "mu_factor",
   "max_iterations", "seed"]

/-- The estimator object state: the optional identity field and the _parms
mapping, modelled as an insertion-ordered association list the way a Python
dict behaves. -/
structure Estimator where
  _id : Option PValue
  _parms : List (String × PValue)
deriving DecidableEq

/-- The state right after H2OEstimator initialization: no identity, empty
_parms. -/
def emptyEstimator : Estimator := ⟨none, []⟩

/-- Dict lookup: first (and, keys being unique, only) binding of a key. -/
def getParm : List (String × PValue) → String → Option PValue
  | [], _ => none
  | (k, w) :: rest, n => if k = n then some w else getParm rest n

/-- Dict assignment: update the binding in place when the key is present,
append it otherwise (Python dicts keep insertion order). -/
def insertParm : List (String × PValue) → String → PValue → List (String × PValue)
  | [], n, v => [(n, v)]
  | (k, w) :: rest, n, v =>
      if k = n then (k, v) :: rest else (k, w) :: insertParm rest n v

/-- Store a validated value in _parms; the model_id field additionally sets
the identity slot, as both its setter and the constructor branch do. -/
def storeField (e : Estimator) (name : String) (v : PValue) : Estimator :=
  if name = "model_id" then ⟨some v, insertParm e._parms name v⟩
  else ⟨e._id, insertParm e._parms name v⟩

/-- Modelled from the spec: assert_is_type of h2o.utils.typechecks (not
under src/) — accepts the absent sentinel None or a value matching the
declared type, otherwise raises a type-validation error identifying the
field, the expected type and the offending value. -/
def assert_is_type (field : String) (ft : FieldType) (v : PValue) :
    Except H2OError Unit :=
  if v = PValue.vNone || matchesType ft v then Except.ok ()
  else Except.error (H2OError.typeError field (typeName ft) v)

/-- Modelled from the spec: H2OFrame._validate of h2o.frame (not under
src/) — accepts None or a data-table reference unchanged, converts a
compatible local tabular object into a table reference, and otherwise
raises a value error naming the field. -/
def H2OFrame_validate (v : PValue) (field : String) : Except H2OError PValue :=
  match v with
  | PValue.vNone => Except.ok PValue.vNone
  | PValue.vFrame k => Except.ok (PValue.vFrame k)
  | PValue.vLocalTable k => Except.ok (PValue.vFrame k)
  | w => Except.error (H2OError.valueError field w)

/-- The per-field setter dispatch of psvm.py: the two frame fields store the
output of the data-table validation, every other recognized field stores the
value after assert_is_type passes. -/
def setField (e : Estimator) (name : String) (v : PValue) :
    Except H2OError Estimator :=
  match declaredType name with
  | none => Except.error (H2OError.pyValueError ("no such field " ++ name))
  | some FieldType.tFrame =>
      match H2OFrame_validate v name with
      | Except.ok v2 => Except.ok (storeField e name v2)
      | Except.error err => Except.error err
  | some ft =>
      match assert_is_type name ft v with
      | Except.ok _ => Except.ok (storeField e name v)
      | Except.error err => Except.error err

/-- One iteration of the constructor loop of
H2OSupportVectorMachineEstimator.__init__: model_id is stored directly
(identity and mapping, no validation), any other recognized name goes
through its setter, and an unrecognized name raises the unknown-parameter
error carrying the offending key and value. -/
def applyPair (e : Estimator) (pname : String) (pvalue : PValue) :
    Except H2OError Estimator :=
  if pname = "model_id" then Except.ok (storeField e "model_id" pvalue)
  else if pname ∈ recognizedNames then setField e pname pvalue
  else Except.error (H2OError.unknownParam pname pvalue)

/-- The constructor loop over the keyword pairs: pairs are validated and
applied one at a time in iteration order; the first failure stops the loop,
keeping the state reached so far (the partially populated object at the
moment the exception is raised). -/
def constructLoop (e : Estimator) :
    List (String × PValue) → Estimator × Option H2OError
  | [] => (e, none)
  | (pname, pvalue) :: rest =>
      match applyPair e pname pvalue with
      | Except.ok e2 => constructLoop e2 rest
      | Except.error err => (e, some err)

/-- The alias rewrite of the constructor: when the key "Lambda" is present
it is popped and its value is re-assigned under the key "lambda_" (updating
that binding in place when it already exists, appending it otherwise, as
Python dict pop followed by assignment does). -/
def lambdaRewrite (kw : List (String × PValue)) : List (String × PValue) :=
  match getParm kw "Lambda" with
  | none => kw
  | some v =>
      let kw2 := kw.filter (fun p => ¬ (p.1 = "Lambda"))
      if kw2.any (fun p => p.1 = "lambda_") then
        kw2.map (fun p => if p.1 = "lambda_" then (p.1, v) else p)
      else kw2 ++ [("lambda_", v)]

/-- H2OSupportVectorMachineEstimator.__init__ on a batch of keyword pairs:
start from the empty state, rewrite the Lambda alias, then run the
validation loop. Returns the object state at the end (complete or at the
point of failure) together with the raised error, if any. -/
def construct (kwargs : List (String × PValue)) : Estimator × Option H2OError :=
  constructLoop emptyEstimator (lambdaRewrite kwargs)

/-- The runtime class of the object passed as the frame argument: the
H2OFrame class itself, some proper subclass of it (carrying the subclass
name), or an unrelated class. -/
inductive PyType where
  | h2oFrame
  | h2oFrameSub (sub : String)
  | other (cls : String)
deriving DecidableEq

/-- Python isinstance with respect to H2OFrame: true for the class itself
and for every subclass. -/
def isH2OFrameInstance : PyType → Bool
  | PyType.h2oFrame => true
  | PyType.h2oFrameSub _ => true
  | PyType.other _ => false

/-- The symbolic computation request built by permutation_varimp:
ExprNode with the "PermutationVarImp" tag, the model reference, the frame
argument and the metric string. -/
structure ExprNode where
  op : String
  model : String
  frame : PyType
  metric : String
deriving DecidableEq

/-- A lazy table handle obtained from the remote expression evaluator. -/
structure LazyFrame where
  expr : ExprNode
deriving DecidableEq

/-- The remote expression evaluator, observed through its submission
counter (the collaborator call-count spy of the spec). -/
structure RemoteEval where
  count : Nat
deriving DecidableEq

/-- Modelled from the spec: H2OFrame._expr over an ExprNode (h2o.frame and
h2o.expr, not under src/) — submits the tagged request to the remote
expression evaluator, obtaining a lazy table handle; one submission per
call. -/
def submitExpr (st : RemoteEval) (e : ExprNode) : RemoteEval × LazyFrame :=
  (⟨st.count + 1⟩, ⟨e⟩)

/-- Modelled from the spec: the local materialization collaborator
(h2o.as_list plus pandas, not under src/) — converts a lazy table handle
into an in-memory table with the same columns; a distinct collaborator from
the remote expression evaluator. -/
structure LocalTable where
  source : LazyFrame
deriving DecidableEq

/-- The result of permutation_varimp: a lazy table reference, or a locally
materialized pandas table. -/
inductive VarimpResult where
  | lazy (f : LazyFrame)
  | pandas (t : LocalTable)
deriving DecidableEq

/-- permutation_varimp of permutation_varimp.py: rejects any frame argument
whose exact runtime class is not H2OFrame (type identity, not isinstance)
with ValueError before building the request; otherwise builds the
PermutationVarImp ExprNode, submits it once to the remote evaluator and
returns either the lazy handle or, when use_pandas is set and pandas is
available, the materialized table. The evaluator state is threaded to
expose the submission count. -/
def permutation_varimp (st : RemoteEval) (model : String) (frame : PyType)
    (use_pandas : Bool) (pandasAvail : Bool) (metric : String) :
    RemoteEval × Except H2OError VarimpResult :=
  if frame ≠ PyType.h2oFrame then
    (st, Except.error (H2OError.pyValueError "Frame is not H2OFrame"))
  else
    let (st2, m_frame) := submitExpr st ⟨"PermutationVarImp", model, frame, metric⟩
    if use_pandas && pandasAvail then
      (st2, Except.ok (VarimpResult.pandas ⟨m_frame⟩))
    else
      (st2, Except.ok (VarimpResult.lazy m_frame))

/-- A well-formed importance table as the renderer expects it: the column
names in order, each paired with its numeric cell at row index 2. The cell
paired with a column named "importance" holds string labels in the real
table and is never read by the renderer (the extraction loop skips that
column by name), so its numeric payload here is irrelevant. -/
structure ImpTable where
  cols : List (String × ℚ)
deriving DecidableEq

/-- The extraction loop of plot_permutation_var_imp: walk the columns in
order, skip any column named "importance", and collect the row-2 cell of
every other column. -/
def importance_val (t : ImpTable) : List ℚ :=
  (t.cols.filter (fun c => ¬ (c.1 = "importance"))).map Prod.snd

/-- The bar centers on the y axis: range(n) reversed, so the first value
gets the highest position (position 0 is drawn at the bottom by the chart
library). -/
def posList (n : Nat) : List ℤ :=
  ((List.range n).map (fun k => Int.ofNat k)).reverse

/-- Python min() over a list, raising (None here) on an empty sequence. -/
def pyMin : List ℤ → Option ℤ
  | [] => none
  | x :: xs =>
      some (match pyMin xs with
            | none => x
            | some y => min x y)

/-- Python max() over a list, raising (None here) on an empty sequence. -/
def pyMax : List ℤ → Option ℤ
  | [] => none
  | x :: xs =>
      some (match pyMax xs with
            | none => x
            | some y => max x y)

/-- The draw calls issued to the chart backend by one successful run of the
renderer: the horizontal bars as (y-position, value) pairs in draw order,
the y-axis tick positions and labels, the y-axis limits, the title, and
whether the chart was shown interactively (server mode saves instead). -/
structure BarChart where
  bars : List (ℤ × ℚ)
  ytickPos : List ℤ
  ytickLabels : List String
  ylim : ℤ × ℤ
  title : String
  shown : Bool
deriving DecidableEq

/-- plot_permutation_var_imp of permutation_varimp.py: extract the numeric
row (skipping the "importance" column), compute the reversed positions and
the feature count capped at 10; if the chart backend is unavailable return
without output; otherwise issue the bar chart over the first
num_of_features positions and values, tick labels columns[1 : num+1], y
limits min(pos)-1 to max(pos)+1 (min and max raise on an empty table), and
the title naming algorithm and metric. -/
def plot_permutation_var_imp (t : ImpTable) (algo_name metric : String)
    (server : Bool) (pltAvail : Bool) : Except String (Option BarChart) :=
  let vals := importance_val t
  let pos := posList vals.length
  let num := min vals.length 10
  if !pltAvail then Except.ok none
  else
    match pyMin (pos.take num), pyMax (pos.take num) with
    | some lo, some hi =>
        Except.ok (some
          { bars := (pos.take num).zip (vals.take num)
            ytickPos := pos.take num
            ytickLabels := ((t.cols.map Prod.fst).drop 1).take num
            ylim := (lo - 1, hi + 1)
            title := "Permutation Variable Importance: " ++ algo_name ++
                     " (" ++ metric ++ ")"
            shown := !server })
    | _, _ => Except.error "min() arg is an empty sequence"

/-- A bar is the topmost of a chart when its y position is maximal among
the drawn bars. -/
def isTopBar (c : BarChart) (b : ℤ × ℚ) : Prop :=
  b ∈ c.bars ∧ ∀ b2 ∈ c.bars, b2.1 ≤ b.1

/-- The largest-valued bar appears at the top: every topmost bar carries a
value no smaller than any other drawn value. -/
def largestBarAtTop (c : BarChart) : Prop :=
  ∀ b ∈ c.bars, isTopBar c b → ∀ b2 ∈ c.bars, b2.2 ≤ b.2

instance (c : BarChart) (b : ℤ × ℚ) : Decidable (isTopBar c b) := by
  unfold isTopBar; infer_instance

instance (c : BarChart) : Decidable (largestBarAtTop c) := by
  unfold largestBarAtTop isTopBar; infer_instance

/-- The error component of a setter outcome, if any. -/
def errorOf : Except H2OError Estimator → Option H2OError
  | Except.ok _ => none
  | Except.error err => some err

/-- Whether an error is a type-validation error. -/
def isTypeError : H2OError → Bool
  | H2OError.typeError _ _ _ => true
  | _ => false

/-- A concrete importance table whose feature values are not in descending
order: importance label column, then f1 with value 1 and f2 with value 2. -/
def cexTable : ImpTable := ⟨[("importance", 0), ("f1", 1), ("f2", 2)]⟩

/-- The draw calls the renderer issues on cexTable: f1 at position 1 (top),
f2 at position 0 (bottom). -/
def cexChart : BarChart :=
  ⟨[(1, 1), (0, 2)], [1, 0], ["f1", "f2"], (-1, 2),
   "Permutation Variable Importance: gbm (mse)", true⟩

/-- The twelve-feature mock table of the spec, with values in descending
order. -/
def mockFeats : List (String × ℚ) :=
  [("f1", 12), ("f2", 11), ("f3", 10), ("f4", 9), ("f5", 8), ("f6", 7),
   ("f7", 6), ("f8", 5), ("f9", 4), ("f10", 3), ("f11", 2), ("f12", 1)]

/-! ## Helper lemmas -/

theorem getParm_insertParm (ps : List (String × PValue)) (n : String) (v : PValue) :
    getParm (insertParm ps n v) n = some v := by
  induction ps with
  | nil => simp [insertParm, getParm]
  | cons p rest ih =>
      obtain ⟨k, w⟩ := p
      unfold insertParm
      by_cases hk : k = n
      · simp [hk, getParm]
      · simp [hk, getParm, ih]

theorem storeField_parms (e : Estimator) (n : String) (v : PValue) :
    (storeField e n v)._parms = insertParm e._parms n v := by
  unfold storeField
  split <;> rfl

theorem getParm_eq_none (ps : List (String × PValue)) (n : String)
    (h : n ∉ ps.map Prod.fst) : getParm ps n = none := by
  induction ps with
  | nil => rfl
  | cons p rest ih =>
      obtain ⟨k, w⟩ := p
      simp only [List.map_cons, List.mem_cons] at h
      push_neg at h
      unfold getParm
      rw [if_neg (fun hkn => h.1 hkn.symm)]
      exact ih h.2

theorem lambdaRewrite_eq_of_not_mem (kw : List (String × PValue))
    (h : "Lambda" ∉ kw.map Prod.fst) : lambdaRewrite kw = kw := by
  unfold lambdaRewrite
  rw [getParm_eq_none kw "Lambda" h]

theorem constructLoop_append_ok (kw1 kw2 : List (String × PValue))
    (e e1 : Estimator) (h : constructLoop e kw1 = (e1, none)) :
    constructLoop e (kw1 ++ kw2) = constructLoop e1 kw2 := by
  induction kw1 generalizing e with
  | nil =>
      have he : e = e1 := congrArg Prod.fst h
      subst he
      rfl
  | cons p rest ih =>
      obtain ⟨n, v⟩ := p
      rw [List.cons_append]
      simp only [constructLoop] at h ⊢
      cases hap : applyPair e n v with
      | ok e2 => rw [hap] at h; exact ih e2 h
      | error err => rw [hap] at h; simp at h

/-! ## Claim theorems -/

/-- C2: for every recognized parameter name and every value matching that
field's declared type, the field setter succeeds (storing the value) and
the field getter on the resulting object returns exactly the value that was
set. -/
theorem set_get_roundtrip (e : Estimator) (name : String) (ft : FieldType)
    (v : PValue) (hrec : name ∈ recognizedNames)
    (hty : declaredType name = some ft) (hm : matchesType ft v = true) :
    setField e name v = Except.ok (storeField e name v) ∧
    getParm (storeField e name v)._parms name = some v := by
  constructor
  · unfold setField
    rw [hty]
    cases ft with
    | tFrame =>
        cases v with
        | vFrame k => rfl
        | vNone => simp [matchesType] at hm
        | vStr s => simp [matchesType] at hm
        | vBool b => simp [matchesType] at hm
        | vInt n => simp [matchesType] at hm
        | vNum q => simp [matchesType] at hm
        | vStrList l => simp [matchesType] at hm
        | vLocalTable k => simp [matchesType] at hm
    | tStr => simp [assert_is_type, hm]
    | tBool => simp [assert_is_type, hm]
    | tInt => simp [assert_is_type, hm]
    | tNumeric => simp [assert_is_type, hm]
    | tStrList => simp [assert_is_type, hm]
    | tEnum cs => simp [assert_is_type, hm]
  · rw [storeField_parms]
    exact getParm_insertParm e._parms name v

/-- C2 witness: setting gamma to the float 2 on a fresh estimator and
reading it back returns 2. -/
theorem set_get_roundtrip_witness :
    ("gamma" ∈ recognizedNames) ∧
    declaredType "gamma" = some FieldType.tNumeric ∧
    matchesType FieldType.tNumeric (PValue.vNum 2) = true ∧
    getParm (storeField emptyEstimator "gamma" (PValue.vNum 2))._parms
      "gamma" = some (PValue.vNum 2) :=
  ⟨by decide, by decide, by decide,
   (set_get_roundtrip emptyEstimator "gamma" FieldType.tNumeric
      (PValue.vNum 2) (by decide) (by decide) (by decide)).2⟩

/-- C3 counterexample: setting training_frame to the integer 5 (a value of
mismatched type) raises the value error naming the field, not a
type-validation error — refuting the claim that every recognized field
raises a type-validation error on a mismatched value. -/
theorem frame_setter_value_error_cex :
    setField emptyEstimator "training_frame" (PValue.vInt 5) =
      Except.error (H2OError.valueError "training_frame" (PValue.vInt 5)) ∧
    (errorOf (setField emptyEstimator "training_frame"
        (PValue.vInt 5))).map isTypeError = some false := by
  constructor
  · rfl
  · rfl

/-- C3 (amended): every recognized field setter accepts the absent sentinel
None or a value of the field’s declared type and stores it; on other
values, every field except the two data-table fields raises a
type-validation error naming the field, the expected type and the offending
value, while training_frame and validation_frame, whenever they reject a
value, raise a value error naming the field instead; in particular, setting
kernel_type to any string other than "gaussian" raises a type-validation
error, while setting it to "gaussian" succeeds. -/
theorem setter_validation_amended :
    (∀ (e : Estimator) (name : String) (ft : FieldType) (v : PValue),
        declaredType name = some ft →
        (v = PValue.vNone ∨ matchesType ft v = true) →
        setField e name v = Except.ok (storeField e name v)) ∧
    (∀ (e : Estimator) (name : String) (ft : FieldType) (v : PValue),
        declaredType name = some ft → ft ≠ FieldType.tFrame →
        v ≠ PValue.vNone → matchesType ft v = false →
        setField e name v =
          Except.error (H2OError.typeError name (typeName ft) v)) ∧
    (∀ (e : Estimator) (name : String) (v : PValue) (err : H2OError),
        declaredType name = some FieldType.tFrame →
        setField e name v = Except.error err →
        err = H2OError.valueError name v) ∧
    (∀ (e : Estimator) (s : String), s ≠ "gaussian" →
        setField e "kernel_type" (PValue.vStr s) =
          Except.error (H2OError.typeError "kernel_type"
            (typeName (FieldType.tEnum ["gaussian"])) (PValue.vStr s))) ∧
    (∀ e : Estimator,
        setField e "kernel_type" (PValue.vStr "gaussian") =
          Except.ok (storeField e "kernel_type" (PValue.vStr "gaussian"))) := by
  refine ⟨?_, ?_, ?_, ?_, ?_⟩
  · intro e name ft v hty hv
    unfold setField
    rw [hty]
    cases ft with
    | tFrame =>
        rcases hv with rfl | hm
        · rfl
        · cases v with
          | vFrame k => rfl
          | vNone => simp [matchesType] at hm
          | vStr s => simp [matchesType] at hm
          | vBool b => simp [matchesType] at hm
          | vInt n => simp [matchesType] at hm
          | vNum q => simp [matchesType] at hm
          | vStrList l => simp [matchesType] at hm
          | vLocalTable k => simp [matchesType] at hm
    | tStr => rcases hv with rfl | hm <;> simp [assert_is_type, *]
    | tBool => rcases hv with rfl | hm <;> simp [assert_is_type, *]
    | tInt => rcases hv with rfl | hm <;> simp [assert_is_type, *]
    | tNumeric => rcases hv with rfl | hm <;> simp [assert_is_type, *]
    | tStrList => rcases hv with rfl | hm <;> simp [assert_is_type, *]
    | tEnum cs => rcases hv with rfl | hm <;> simp [assert_is_type, *]
  · intro e name ft v hty hft hvn hm
    unfold setField
    rw [hty]
    cases ft with
    | tFrame => exact absurd rfl hft
    | tStr => simp [assert_is_type, hm, hvn]
    | tBool => simp [assert_is_type, hm, hvn]
    | tInt => simp [assert_is_type, hm, hvn]
    | tNumeric => simp [assert_is_type, hm, hvn]
    | tStrList => simp [assert_is_type, hm, hvn]
    | tEnum cs => simp [assert_is_type, hm, hvn]
  · intro e name v err hty herr
    unfold setField at herr
    rw [hty] at herr
    cases v with
    | vNone => simp [H2OFrame_validate] at herr
    | vFrame k => simp [H2OFrame_validate] at herr
    | vLocalTable k => simp [H2OFrame_validate] at herr
    | vStr s =>
        simp [H2OFrame_validate] at herr
        first
        | exact herr
        | exact herr.symm
    | vBool b =>
        simp [H2OFrame_validate] at herr
        first
        | exact herr
        | exact herr.symm
    | vInt n =>
        simp [H2OFrame_validate] at herr
        first
        | exact herr
        | exact herr.symm
    | vNum q =>
        simp [H2OFrame_validate] at herr
        first
        | exact herr
        | exact herr.symm
    | vStrList l =>
        simp [H2OFrame_validate] at herr
        first
        | exact herr
        | exact herr.symm
  · intro e s hs
    have hdt : declaredType "kernel_type" = some (FieldType.tEnum ["gaussian"]) := by
      decide
    unfold setField
    rw [hdt]
    dsimp only
    unfold assert_is_type
    rw [if_neg]
    simp [matchesType, hs]
  · intro e
    have hdt : declaredType "kernel_type" = some (FieldType.tEnum ["gaussian"]) := by
      decide
    unfold setField
    rw [hdt]
    dsimp only
    unfold assert_is_type
    rw [if_pos]
    decide

/-- C4: constructing the estimator with a single unrecognized name/value
pair raises the unknown-parameter error carrying the offending key (after
the Lambda alias canonicalization the constructor itself performs first)
and the offending value, and the object's parameter mapping retains no
entry derived from the value. -/
theorem construct_unknown_param (name : String) (v : PValue)
    (h : name ∉ recognizedNames) :
    construct [(name, v)] =
      (emptyEstimator,
       some (H2OError.unknownParam
         (if name = "Lambda" then "lambda_" else name) v)) := by
  by_cases hL : name = "Lambda"
  · subst hL
    rfl
  · have hrw : lambdaRewrite [(name, v)] = [(name, v)] := by
      apply lambdaRewrite_eq_of_not_mem
      simp only [List.map_cons, List.map_nil, List.mem_singleton]
      exact fun hc => hL hc.symm
    unfold construct
    rw [hrw, if_neg hL]
    have hmid : name ≠ "model_id" := by
      intro hm
      exact h (hm ▸ (by decide : "model_id" ∈ recognizedNames))
    unfold constructLoop applyPair
    rw [if_neg hmid, if_neg h]

/-- C4 witness: constructing with the unrecognized pair foo = 5 fails with
the unknown-parameter error naming foo and 5, leaving _parms empty. -/
theorem construct_unknown_param_witness :
    ("foo" ∉ recognizedNames) ∧
    construct [("foo", PValue.vInt 5)] =
      (emptyEstimator, some (H2OError.unknownParam "foo" (PValue.vInt 5))) :=
  ⟨by decide, by
    have := construct_unknown_param "foo" (PValue.vInt 5) (by decide)
    simpa using this⟩

/-- C5: constructing with the pair Lambda = v and constructing with the
pair lambda_ = v have identical outcomes: the same object state and the
same raised error (here: both fail with the unknown-parameter error naming
lambda_, since psvm.py has no lambda_ parameter in its recognized set); the
alias rewriting is transparent. -/
theorem construct_lambda_alias_transparent (v : PValue) :
    construct [("Lambda", v)] = construct [("lambda_", v)] := rfl

/-- C6: when the frame argument is not an H2OFrame instance at all,
permutation_varimp raises the ValueError immediately and the remote
expression evaluator receives zero submissions (its state is unchanged). -/
theorem varimp_rejects_nonframe_before_remote (st : RemoteEval)
    (model metric : String) (frame : PyType) (up pa : Bool)
    (h : isH2OFrameInstance frame = false) :
    permutation_varimp st model frame up pa metric =
      (st, Except.error (H2OError.pyValueError "Frame is not H2OFrame")) := by
  cases frame with
  | h2oFrame => simp [isH2OFrameInstance] at h
  | h2oFrameSub s => rfl
  | other s => rfl

/-- C6 witness: calling with a plain non-table object makes zero remote
submissions and fails with the ValueError. -/
theorem varimp_rejects_nonframe_before_remote_witness :
    isH2OFrameInstance (PyType.other "int") = false ∧
    permutation_varimp ⟨0⟩ "model1" (PyType.other "int") true true "mse" =
      (⟨0⟩, Except.error (H2OError.pyValueError "Frame is not H2OFrame")) :=
  ⟨rfl, varimp_rejects_nonframe_before_remote ⟨0⟩ "model1" "mse"
    (PyType.other "int") true true rfl⟩

/-- C7: a call whose frame argument has exact class H2OFrame performs
exactly one remote submission, for either value of use_pandas (and of
pandas availability), succeeds, and a repeated call performs a further
submission (no caching or deduplication). -/
theorem varimp_exactly_one_submission (st : RemoteEval)
    (model metric : String) (up pa : Bool) :
    (permutation_varimp st model PyType.h2oFrame up pa metric).1.count =
      st.count + 1 ∧
    (∃ r, (permutation_varimp st model PyType.h2oFrame up pa metric).2 =
      Except.ok r) ∧
    (permutation_varimp
        (permutation_varimp st model PyType.h2oFrame up pa metric).1
        model PyType.h2oFrame up pa metric).1.count = st.count + 2 := by
  unfold permutation_varimp submitExpr
  cases hup : up && pa <;> simp

/-- C9: for every importance table, when the chart backend is unavailable
the renderer returns normally (no error) and issues no draw calls. -/
theorem plot_no_backend_noop (t : ImpTable) (algo metric : String)
    (server : Bool) :
    plot_permutation_var_imp t algo metric server false = Except.ok none := rfl

/-- C10: permutation_varimp tests the frame by exact type identity: an
object of any proper subclass of H2OFrame is an H2OFrame instance, yet the
call raises the ValueError and the remote evaluator receives zero
submissions. -/
theorem varimp_exact_type_rejects_subclass (sub model metric : String)
    (st : RemoteEval) (up pa : Bool) :
    isH2OFrameInstance (PyType.h2oFrameSub sub) = true ∧
    permutation_varimp st model (PyType.h2oFrameSub sub) up pa metric =
      (st, Except.error (H2OError.pyValueError "Frame is not H2OFrame")) :=
  ⟨rfl, rfl⟩

/-- C8: the constructor applies the supplied pairs one at a time in
iteration order: when a prefix applies cleanly reaching state e1 and the
next pair fails to validate, construction raises that error while the
object keeps state e1 (all previously processed pairs stored, no rollback)
and the remaining pairs are never processed. -/
theorem construct_no_rollback (kw1 rest : List (String × PValue)) (n : String)
    (v : PValue) (e1 : Estimator) (err : H2OError)
    (hl : "Lambda" ∉ (kw1 ++ (n, v) :: rest).map Prod.fst)
    (h1 : constructLoop emptyEstimator kw1 = (e1, none))
    (h2 : applyPair e1 n v = Except.error err) :
    construct (kw1 ++ (n, v) :: rest) = (e1, some err) := by
  unfold construct
  rw [lambdaRewrite_eq_of_not_mem _ hl]
  rw [constructLoop_append_ok kw1 ((n, v) :: rest) emptyEstimator e1 h1]
  simp only [constructLoop]
  rw [h2]

/-- C8 witness: in the batch gamma = 2, kernel_type = "linear", seed = 7,
the gamma pair is stored, the kernel_type pair raises the type-validation
error, and the seed pair is never applied. -/
theorem construct_no_rollback_witness :
    construct [("gamma", PValue.vNum 2), ("kernel_type", PValue.vStr "linear"),
               ("seed", PValue.vInt 7)] =
      (⟨none, [("gamma", PValue.vNum 2)]⟩,
       some (H2OError.typeError "kernel_type" "Enum gaussian"
         (PValue.vStr "linear"))) :=
  construct_no_rollback [("gamma", PValue.vNum 2)] [("seed", PValue.vInt 7)]
    "kernel_type" (PValue.vStr "linear") ⟨none, [("gamma", PValue.vNum 2)]⟩
    (H2OError.typeError "kernel_type" "Enum gaussian" (PValue.vStr "linear"))
    (by decide) (by rfl) (by rfl)

/-- C1 counterexample: on a well-formed importance table whose feature
values are not in descending order (f1 with value 1, then f2 with value 2),
the renderer draws the f1 bar at the top position and the larger f2 bar
below it, so the largest-valued bar does not appear at the top; the claim
as stated fails on this table. -/
theorem plot_largest_bar_not_at_top_cex :
    plot_permutation_var_imp cexTable "gbm" "mse" false true =
      Except.ok (some cexChart) ∧ ¬ largestBarAtTop cexChart := by
  constructor
  · rfl
  · decide

/-- In a chart whose bar positions strictly decrease in draw order and
whose bar values are non-increasing in draw order, every topmost bar
carries the largest value. -/
theorem largestBarAtTop_of_sorted (c : BarChart)
    (hpos : (c.bars.map Prod.fst).Pairwise (fun a b => b < a))
    (hval : (c.bars.map Prod.snd).Pairwise (fun a b => b ≤ a)) :
    largestBarAtTop c := by
  intro b hb htop b2 hb2
  cases hcb : c.bars with
  | nil => rw [hcb] at hb; simp at hb
  | cons b0 rest =>
      rw [hcb] at hb hb2 hpos hval
      simp only [List.map_cons, List.pairwise_cons] at hpos hval
      have hb0mem : b0 ∈ c.bars := by rw [hcb]; exact List.mem_cons_self b0 rest
      have hbeq : b = b0 := by
        rcases List.mem_cons.mp hb with h | hbr
        · exact h
        · exfalso
          have h1 : b.1 < b0.1 :=
            hpos.1 b.1 (List.mem_map_of_mem Prod.fst hbr)
          have h2 : b0.1 ≤ b.1 := htop.2 b0 hb0mem
          omega
      subst hbeq
      rcases List.mem_cons.mp hb2 with h | hb2r
      · rw [h]
      · exact hval.1 b2.2 (List.mem_map_of_mem Prod.snd hb2r)

/-- C1 (amended): for every well-formed importance table headed by the
label column, the renderer draws at most the first 10 feature columns in
the table's existing column order (no client-side sorting, no padding when
fewer than 10 are present), assigns strictly decreasing vertical positions
in draw order (so the first feature column's bar appears at the top), and
labels the ticks with the first feature names; consequently the
largest-valued bar appears at the top whenever the producer supplies the
feature values in non-increasing order. -/
theorem plot_first10_order_amended (d : ℚ) (feats : List (String × ℚ))
    (algo metric : String) (server : Bool)
    (hfeat : ∀ p ∈ feats, p.1 ≠ "importance")
    (hne : feats ≠ []) :
    ∃ c : BarChart,
      plot_permutation_var_imp ⟨("importance", d) :: feats⟩ algo metric
        server true = Except.ok (some c) ∧
      c.bars.map Prod.snd = (feats.map Prod.snd).take 10 ∧
      c.bars.length = min feats.length 10 ∧
      c.ytickLabels = (feats.map Prod.fst).take 10 ∧
      (c.bars.map Prod.fst).Pairwise (fun a b => b < a) ∧
      ((feats.map Prod.snd).Pairwise (fun a b => b ≤ a) →
        largestBarAtTop c) := by
  have hvals : importance_val ⟨("importance", d) :: feats⟩ =
      feats.map Prod.snd := by
    unfold importance_val
    dsimp only
    rw [List.filter_cons, if_neg (by simp),
        List.filter_eq_self.mpr (fun a ha => by simpa using hfeat a ha)]
  have hLpos : 0 < feats.length := List.length_pos.mpr hne
  have hplen : (posList feats.length).length = feats.length := by
    unfold posList
    rw [List.length_reverse, List.length_map, List.length_range]
  have hlp : ((posList feats.length).take (min feats.length 10)).length =
      min feats.length 10 := by
    rw [List.length_take, hplen]
    omega
  have hlv : (((feats.map Prod.snd)).take (min feats.length 10)).length =
      min feats.length 10 := by
    rw [List.length_take, List.length_map]
    omega
  obtain ⟨lo, hlo⟩ : ∃ lo,
      pyMin ((posList feats.length).take (min feats.length 10)) = some lo := by
    cases hq : (posList feats.length).take (min feats.length 10) with
    | nil =>
        exfalso
        have hq2 := congrArg List.length hq
        rw [hlp] at hq2
        simp only [List.length_nil] at hq2
        omega
    | cons x xs => exact ⟨_, rfl⟩
  obtain ⟨hi, hhi⟩ : ∃ hi,
      pyMax ((posList feats.length).take (min feats.length 10)) = some hi := by
    cases hq : (posList feats.length).take (min feats.length 10) with
    | nil =>
        exfalso
        have hq2 := congrArg List.length hq
        rw [hlp] at hq2
        simp only [List.length_nil] at hq2
        omega
    | cons x xs => exact ⟨_, rfl⟩
  have hplot : plot_permutation_var_imp ⟨("importance", d) :: feats⟩ algo
      metric server true = Except.ok (some
        { bars := ((posList feats.length).take (min feats.length 10)).zip
            ((feats.map Prod.snd).take (min feats.length 10))
          ytickPos := (posList feats.length).take (min feats.length 10)
          ytickLabels := (feats.map Prod.fst).take (min feats.length 10)
          ylim := (lo - 1, hi + 1)
          title := "Permutation Variable Importance: " ++ algo ++
                   " (" ++ metric ++ ")"
          shown := !server }) := by
    simp only [plot_permutation_var_imp, hvals, List.length_map,
               Bool.not_true, Bool.false_eq_true, if_false]
    rw [hlo, hhi]
    dsimp only
    congr 1
  have hpl : (posList feats.length).Pairwise (fun a b : ℤ => b < a) := by
    unfold posList
    apply List.pairwise_reverse.mpr
    apply List.pairwise_map.mpr
    refine List.Pairwise.imp ?_ (List.pairwise_lt_range feats.length)
    intro a b h
    exact Int.ofNat_lt.mpr h
  have hpp : ((posList feats.length).take (min feats.length 10)).Pairwise
      (fun a b : ℤ => b < a) :=
    hpl.sublist (List.take_sublist _ _)
  have hmapfst : (((posList feats.length).take (min feats.length 10)).zip
      ((feats.map Prod.snd).take (min feats.length 10))).map Prod.fst =
      (posList feats.length).take (min feats.length 10) :=
    List.map_fst_zip _ _ (le_of_eq (hlp.trans hlv.symm))
  have hmapsnd : (((posList feats.length).take (min feats.length 10)).zip
      ((feats.map Prod.snd).take (min feats.length 10))).map Prod.snd =
      (feats.map Prod.snd).take (min feats.length 10) :=
    List.map_snd_zip _ _ (le_of_eq (hlv.trans hlp.symm))
  refine ⟨_, hplot, ?_, ?_, ?_, ?_, ?_⟩
  · dsimp only
    rw [hmapsnd]
    apply List.take_eq_take.mpr
    rw [List.length_map]
    omega
  · dsimp only
    rw [List.length_zip, hlp, hlv]
    exact min_self _
  · dsimp only
    apply List.take_eq_take.mpr
    rw [List.length_map]
    omega
  · dsimp only
    rw [hmapfst]
    exact hpp
  · intro hs
    apply largestBarAtTop_of_sorted
    · dsimp only
      rw [hmapfst]
      exact hpp
    · dsimp only
      rw [hmapsnd]
      exact hs.sublist (List.take_sublist _ _)

/-- C1 witness: on the twelve-feature mock table with descending values,
the renderer selects exactly the first 10 features in original order,
draws them at strictly decreasing positions, and the largest-valued bar is
at the top. -/
theorem plot_first10_order_amended_witness :
    (∀ p ∈ mockFeats, p.1 ≠ "importance") ∧ mockFeats ≠ [] ∧
    (∃ c : BarChart,
      plot_permutation_var_imp ⟨("importance", 0) :: mockFeats⟩ "gbm" "mse"
        false true = Except.ok (some c) ∧
      c.bars.map Prod.snd = (mockFeats.map Prod.snd).take 10 ∧
      c.bars.length = min mockFeats.length 10 ∧
      c.ytickLabels = (mockFeats.map Prod.fst).take 10 ∧
      (c.bars.map Prod.fst).Pairwise (fun a b => b < a) ∧
      ((mockFeats.map Prod.snd).Pairwise (fun a b => b ≤ a) →
        largestBarAtTop c)) :=
  ⟨by decide, by decide,
   plot_first10_order_amended 0 mockFeats "gbm" "mse" false
     (by decide) (by decide)⟩

/-- C3 witness: the training_frame setter accepts a data-table reference
and the None sentinel, storing them; the kernel_type setter rejects the
string "linear" with a type-validation error and accepts the string
"gaussian". -/
theorem setter_validation_amended_witness :
    setField emptyEstimator "training_frame" (PValue.vFrame "train1") =
      Except.ok (storeField emptyEstimator "training_frame"
        (PValue.vFrame "train1")) ∧
    setField emptyEstimator "training_frame" PValue.vNone =
      Except.ok (storeField emptyEstimator "training_frame" PValue.vNone) ∧
    setField emptyEstimator "kernel_type" (PValue.vStr "linear") =
      Except.error (H2OError.typeError "kernel_type" "Enum gaussian"
        (PValue.vStr "linear")) ∧
    setField emptyEstimator "kernel_type" (PValue.vStr "gaussian") =
      Except.ok (storeField emptyEstimator "kernel_type"
        (PValue.vStr "gaussian")) :=
  ⟨setter_validation_amended.1 emptyEstimator "training_frame"
     FieldType.tFrame (PValue.vFrame "train1") (by decide)
     (Or.inr (by decide)),
   setter_validation_amended.1 emptyEstimator "training_frame"
     FieldType.tFrame PValue.vNone (by decide) (Or.inl rfl),
   setter_validation_amended.2.2.2.1 emptyEstimator "linear" (by decide),
   setter_validation_amended.2.2.2.2 emptyEstimator⟩

end H2OSpec
